import Mathlib

/-!
Shallow embedding of the Task Pulse client (React front end) and of the
backend operations its specification describes.  Pure fragments of the
JavaScript source are translated into Lean functions; the stores behind the
REST API are explicit lists threaded through the operations.  Backend code
that is not part of the repository snapshot is modelled from the
specification and marked as such in its doc comment.
-/

namespace TaskPulse

/-- Task status enumeration (pending / in_progress / completed), as used by
the client pages and the spec data model. -/
inductive Status
  | pending
  | inProgress
  | completed
deriving DecidableEq, Repr

/-- User role enumeration (`user` | `admin`). -/
inductive Role
  | user
  | admin
deriving DecidableEq, Repr

/-- JavaScript `a || b` on an optional numeric value: the fallback `b` is
used when `a` is absent (null / NaN) or equal to `0` (falsy). -/
def jsOrNat (a : Option Nat) (b : Option Nat) : Option Nat :=
  match a with
  | some n => if n = 0 then b else some n
  | none => b

/-- JavaScript `a || b` on an optional string: the fallback `b` is used when
`a` is absent or the empty string (falsy). -/
def jsOrString (a : Option String) (b : String) : String :=
  match a with
  | some s => if s = "" then b else s
  | none => b

/-- Body of a `POST /task/` request as assembled by the client
(`createTask` in the TaskService, src/unnamed/part_007 lines 61-77). -/
structure TaskPayload where
  title : String
  description : String
  task_type : String
  priority : String
  assignee_id : Option Nat
  assignee_ids : Option (List Nat)
  estimated_hours : Nat
  due_date : Option String
  is_public : Bool
  tags : Option String
deriving DecidableEq, Repr

/-- Form state of `CreateTaskModal` (CreateTaskModal.js lines 7-18):
`assignee_id` is `null` until a primary assignee is chosen. -/
structure ModalForm where
  title : String
  description : String
  priority : String
  task_type : String
  estimated_hours : Nat
  due_date : Option String
  assignee_id : Option Nat
  is_public : Bool
  tags : Option String
deriving DecidableEq, Repr

/-- Task data built by `CreateTaskModal.handleSubmit` (CreateTaskModal.js
lines 60-64): it spreads the form, overrides `assignee_id` with
`parseInt(formData.assignee_id) || user?.id` and sets `assignee_ids` to the
selected additional assignees when non-empty, else `null`. -/
def modalTaskData (form : ModalForm) (userId : Option Nat)
    (selectedAssignees : List Nat) : TaskPayload :=
  { title := form.title
    description := form.description
    task_type := form.task_type
    priority := form.priority
    assignee_id := jsOrNat form.assignee_id userId
    assignee_ids :=
      if selectedAssignees.length > 0 then some selectedAssignees else none
    estimated_hours := form.estimated_hours
    due_date := form.due_date
    is_public := form.is_public
    tags := form.tags }

/-- Tag normalization done by `CreateTaskPage.handleSubmit`
(CreateTaskPage.js line 45): `tags ? tags.split(',').map(trim)
.filter(nonempty).join(',') : null`. -/
def normalizeTags (tags : String) : Option String :=
  if tags = "" then none
  else
    some (String.intercalate ","
      (((tags.splitOn ",").map String.trim).filter (fun t => ¬ t = "")))

/-- Task data built by `CreateTaskPage.handleSubmit` (CreateTaskPage.js
lines 35-46): `assignee_id` is `assigneeId || user?.id`, `assignee_ids` is
the selected list when non-empty else `null`, `due_date` is
`dueDate || null`, and tags are split / trimmed / re-joined. -/
def pageTaskData (title description taskType priority : String)
    (assigneeId : Option Nat) (userId : Option Nat)
    (selectedAssignees : List Nat) (estimatedHours : Nat) (dueDate : String)
    (isPublic : Bool) (tags : String) : TaskPayload :=
  { title := title
    description := description
    task_type := taskType
    priority := priority
    assignee_id := jsOrNat assigneeId userId
    assignee_ids :=
      if selectedAssignees.length > 0 then some selectedAssignees else none
    estimated_hours := estimatedHours
    due_date := if dueDate = "" then none else some dueDate
    is_public := isPublic
    tags := normalizeTags tags }

/-- Options offered by the modal's additional-assignees multi-select
(CreateTaskModal.js line 422): every known assignee whose id differs from
the currently chosen primary (`assignee.id !== parseInt(formData.assignee_id)`;
when no primary is chosen the comparison with NaN keeps everyone). -/
def modalAdditionalOptions (assignees : List Nat)
    (formAssigneeId : Option Nat) : List Nat :=
  assignees.filter (fun a => ¬ some a = formAssigneeId)

/-- Concrete modal form used to test the additional-assignee claim: the
primary assignee is user 7. -/
def cexModalForm : ModalForm :=
  { title := "Fix bug"
    description := "d"
    priority := "high"
    task_type := "task"
    estimated_hours := 0
    due_date := none
    assignee_id := some 7
    is_public := false
    tags := none }

/-- Outcome of rendering a guarded route in the client router. -/
inductive RouteOutcome
  | renderPage
  | redirectLogin
  | redirectDashboard
deriving DecidableEq, Repr

/-- JavaScript `allowedRoles.includes(user?.role)`: a missing user yields
`undefined`, which is never a member of the role list. -/
def roleIncluded (allowedRoles : List Role) (userRole : Option Role) : Bool :=
  match userRole with
  | some r => allowedRoles.contains r
  | none => false

/-- `ProtectedRoute` from App.js lines 22-34: unauthenticated callers are
sent to `/login`; authenticated callers whose role is not in a non-empty
`allowedRoles` are sent to `/dashboard`; otherwise the children render. -/
def protectedRoute (isAuthenticated : Bool) (userRole : Option Role)
    (allowedRoles : List Role) : RouteOutcome :=
  if ¬ isAuthenticated then RouteOutcome.redirectLogin
  else if allowedRoles.length > 0 ∧ ¬ roleIncluded allowedRoles userRole then
    RouteOutcome.redirectDashboard
  else RouteOutcome.renderPage

/-- `AdminRoute` from App.js lines 37-43: a `ProtectedRoute` with
`allowedRoles = ['admin']`; it wraps `/admin`, `/admin/dashboard` and
`/admin/tasks`. -/
def adminRoute (isAuthenticated : Bool) (userRole : Option Role) :
    RouteOutcome :=
  protectedRoute isAuthenticated userRole [Role.admin]

/-- Error taxonomy of the API (spec section 7). -/
inductive ApiError
  | Unauthenticated
  | Forbidden
  | NotFound
  | ValidationError
  | DuplicateEmail
deriving DecidableEq, Repr

/-- Modelled from the spec: the backend guard of the admin-only endpoints
(`GET /admin/dashboard`, `GET /admin/tasks`, `POST /admin/task`) is not
under src (only its client callers are).  Spec section 4.2: unauthenticated
access fails with `Unauthenticated`; a `user`-role caller fails with
`Forbidden`; an `admin` caller succeeds. -/
def adminEndpointAccess (caller : Option Role) : Except ApiError Unit :=
  match caller with
  | none => Except.error ApiError.Unauthenticated
  | some Role.admin => Except.ok ()
  | some Role.user => Except.error ApiError.Forbidden

/-- Client credential state held by `AuthProvider` (AuthProvider.js):
the in-memory user and flag plus the two localStorage entries. -/
structure ClientAuthState where
  userId : Option Nat
  isAuthenticated : Bool
  storedUser : Option String
  accessToken : Option String
deriving DecidableEq, Repr

/-- Result of the server-side `POST /login/logout` call as seen by the
client: either it succeeded or the request threw. -/
inductive ServerLogoutResult
  | succeeded
  | failed
deriving DecidableEq, Repr

/-- The fully cleared credential state. -/
def clearedAuth : ClientAuthState :=
  { userId := none
    isAuthenticated := false
    storedUser := none
    accessToken := none }

/-- `logout` from AuthProvider.js lines 24-38: it tries the server logout,
swallows any error in the catch, and the `finally` block clears the user,
the flag and both localStorage keys regardless of the server result. -/
def logout (s : ClientAuthState) (r : ServerLogoutResult) : ClientAuthState :=
  match r with
  | ServerLogoutResult.succeeded =>
      let _ := s
      clearedAuth
  | ServerLogoutResult.failed =>
      let _ := s
      clearedAuth

/-- Task record as the client receives and stores it (fields rendered by
TasksPage.js / AdminTaskList.js) and as the task store holds it. -/
structure Task where
  id : Nat
  title : String
  description : String
  status : Status
  priority : String
  assignee_id : Nat
  assignee_ids : List Nat
  author_id : Nat
  assignee_email : String
  due_date : Option String
deriving DecidableEq, Repr

/-- Local state update of `handleStatusChange` (TasksPage.js lines 56-58):
`tasks.map(task => task.id === taskId ? { ...task, status: newStatus } :
task)`. -/
def changeStatusLocal (tasks : List Task) (taskId : Nat)
    (newStatus : Status) : List Task :=
  tasks.map (fun task =>
    if task.id = taskId then { task with status := newStatus } else task)

/-- Two concrete tasks used to exercise the status-change frame theorem. -/
def demoTaskA : Task :=
  { id := 1, title := "a", description := "da", status := Status.pending
    priority := "low", assignee_id := 1, assignee_ids := [], author_id := 1
    assignee_email := "a@x", due_date := none }

/-- Second concrete task, with a different id. -/
def demoTaskB : Task :=
  { id := 2, title := "b", description := "db", status := Status.pending
    priority := "high", assignee_id := 2, assignee_ids := [1], author_id := 1
    assignee_email := "b@x", due_date := some "2025-01-01" }

/-- User record of the user/session store (spec section 3): credentials are
held as a salted hash, never plaintext. -/
structure User where
  id : Nat
  email : String
  passwordHash : String
  first_name : String
  last_name : String
  role : Role
deriving DecidableEq, Repr

/-- Modelled from the spec: the backend password hashing is not under src.
Only agreement of the stored hash with the hash of the presented password
matters to the claims, so hashing is modelled as an injective tagging. -/
def hashPassword (password : String) : String :=
  String.append "hashed:" password

/-- Error of the authentication service on login (spec section 4.1): a
single kind, whether the account is missing or the password is wrong. -/
inductive LoginError
  | InvalidCredentials
deriving DecidableEq, Repr

/-- Successful login response: token plus the `{id, email, role}` copy the
client caches for UI branching. -/
structure LoginSuccess where
  access_token : String
  userId : Nat
  userEmail : String
  userRole : Role
deriving DecidableEq, Repr

/-- Modelled from the spec: the backend `POST /login/token` handler is not
under src (only its client callers are).  Spec section 4.1: `login(email,
password)` fails with `InvalidCredentials` when the password hash does not
match or the account does not exist, and must not reveal which of the two
is wrong; on success it issues a token and the user copy. -/
def login (users : List User) (email password : String) :
    Except LoginError LoginSuccess :=
  match users.find? (fun u => u.email = email) with
  | none => Except.error LoginError.InvalidCredentials
  | some u =>
      if u.passwordHash = hashPassword password then
        Except.ok
          { access_token := "token"
            userId := u.id
            userEmail := u.email
            userRole := u.role }
      else Except.error LoginError.InvalidCredentials

/-- UI state produced by the login page submit handler. -/
structure LoginUi where
  errorMessage : String
  navigatedTo : Option String
  storedUser : Option (Nat × String × Role)
deriving DecidableEq, Repr

/-- Login page `handleSubmit` (src/unnamed/part_002 lines 155-181): on
success it caches `{id, email, role}` and navigates by role; on any failure
it shows the one fixed message and stores nothing. -/
def loginSubmit (resp : Except LoginError LoginSuccess) : LoginUi :=
  match resp with
  | Except.ok s =>
      { errorMessage := ""
        navigatedTo := some
          (if s.userRole = Role.admin then "/admin/dashboard"
            else "/dashboard")
        storedUser := some (s.userId, s.userEmail, s.userRole) }
  | Except.error _ =>
      { errorMessage := "Invalid email or password. Please try again."
        navigatedTo := none
        storedUser := none }

/-- Input of the sign-up form (SignUp component, src/unnamed/part_004). -/
structure SignupInput where
  email : String
  password : String
  firstName : Option String
  lastName : Option String
deriving DecidableEq, Repr

/-- Body of the registration request. -/
structure SignupPayload where
  email : String
  password : String
  first_name : String
  last_name : String
  role : String
deriving DecidableEq, Repr

/-- Payload sent by `SignUpUser` (TaskService, src/unnamed/part_007 lines
37-47): names fall back to "User" / "Name" and the role field is the
constant string "user". -/
def signUpUserPayload (s : SignupInput) : SignupPayload :=
  { email := s.email
    password := s.password
    first_name := jsOrString s.firstName "User"
    last_name := jsOrString s.lastName "Name"
    role := "user" }

/-- Modelled from the spec: the backend `POST /user/` registration handler
is not under src (only its client callers are).  Spec sections 3 and 4.1:
`DuplicateEmail` when the email exists, `ValidationError` when the password
is shorter than the minimum length 6, and the created user's role defaults
to `user` at creation — never taken from the client-supplied role claim. -/
def register (users : List User) (p : SignupPayload) (nextId : Nat) :
    Except ApiError (User × List User) :=
  if users.any (fun u => u.email = p.email) then
    Except.error ApiError.DuplicateEmail
  else if p.password.length < 6 then Except.error ApiError.ValidationError
  else
    let u : User :=
      { id := nextId
        email := p.email
        passwordHash := hashPassword p.password
        first_name := p.first_name
        last_name := p.last_name
        role := Role.user }
    Except.ok (u, users ++ [u])

/-- Modelled from the spec: the explicit, authorized promotion operation of
spec section 3 is not under src.  Only an admin caller may promote; a
`user`-role caller fails with `Forbidden`, a missing target with
`NotFound`. -/
def promoteToAdmin (users : List User) (callerRole : Role)
    (targetId : Nat) : Except ApiError (List User) :=
  match callerRole with
  | Role.user => Except.error ApiError.Forbidden
  | Role.admin =>
      if users.any (fun u => u.id = targetId) then
        Except.ok (users.map (fun u =>
          if u.id = targetId then { u with role := Role.admin } else u))
      else Except.error ApiError.NotFound

/-- Modelled from the spec: the backend `POST /task/` handler is not under
src (only its client callers are).  Spec section 4.3: validates the title
non-empty and the priority within its enumeration, resolves `assignee_id`
defaulting to the caller when omitted, normalizes `assignee_ids` to include
the primary assignee, fails with `NotFound` when the referenced assignee
does not exist, and persists the created record with status pending. -/
def createTask (users : List User) (tasks : List Task) (p : TaskPayload)
    (callerId : Nat) (nextId : Nat) : Except ApiError (Task × List Task) :=
  if p.title = "" then Except.error ApiError.ValidationError
  else if ¬ p.priority ∈ ["low", "medium", "high"] then
    Except.error ApiError.ValidationError
  else
    let assignee := p.assignee_id.getD callerId
    if users.any (fun u => u.id = assignee) then
      let ids := p.assignee_ids.getD []
      let t : Task :=
        { id := nextId
          title := p.title
          description := p.description
          status := Status.pending
          priority := p.priority
          assignee_id := assignee
          assignee_ids :=
            if ids = [] then []
            else if assignee ∈ ids then ids else assignee :: ids
          author_id := callerId
          assignee_email := ""
          due_date := p.due_date }
      Except.ok (t, tasks ++ [t])
    else Except.error ApiError.NotFound

/-- Task store after a create attempt: unchanged when the create failed. -/
def createTaskStore (users : List User) (tasks : List Task) (p : TaskPayload)
    (callerId : Nat) (nextId : Nat) : List Task :=
  match createTask users tasks p callerId nextId with
  | Except.ok (_, ts) => ts
  | Except.error _ => tasks

/-- Query string of `getAllTask` (TaskService, src/unnamed/part_007 lines
48-58): `skip = (page - 1) * limit`, the per-page `limit`, and the sort
direction passed through. -/
structure TaskListQuery where
  skip : Nat
  limit : Nat
  is_ascending : Bool
deriving DecidableEq, Repr

/-- The client-side pagination computation of `getAllTask`. -/
def getAllTaskQuery (page : Nat) (isAscending : Bool) (limit : Nat) :
    TaskListQuery :=
  { skip := (page - 1) * limit
    limit := limit
    is_ascending := isAscending }

/-- Modelled from the spec: the backend `GET /task/assignee/tasks` handler
is not under src (only its client callers are).  Spec section 4.3:
`listTasks` returns the page `items` cut out of the caller's qualifying
tasks by skip/limit, and the `total` count of qualifying tasks. -/
def listTasks (qualifying : List Task) (skip limit : Nat) :
    List Task × Nat :=
  ((qualifying.drop skip).take limit, qualifying.length)

/-- Modelled from the spec: the backend `PUT /task/task_title/{id}` handler
is not under src (only its client callers are).  Spec section 4.3 /
section 8: it sets the title of the referenced task, failing with
`NotFound` when the task does not exist. -/
def updateTaskTitle (tasks : List Task) (id : Nat) (newTitle : String) :
    Except ApiError (List Task) :=
  if tasks.any (fun t => t.id = id) then
    Except.ok (tasks.map (fun t =>
      if t.id = id then { t with title := newTitle } else t))
  else Except.error ApiError.NotFound

/-- Modelled from the spec: the backend `GET /task/{id}` handler is not
under src (only its client callers are): it returns the referenced task or
`NotFound`. -/
def getTaskDetails (tasks : List Task) (id : Nat) : Except ApiError Task :=
  match tasks.find? (fun t => t.id = id) with
  | some t => Except.ok t
  | none => Except.error ApiError.NotFound

/-- Optimistic local update of `handleSaveTitle` (TaskDetails.js lines
35-49): `setTask(prev => ({ ...prev, title: newTitle }))`. -/
def handleSaveTitle (task : Task) (newTitle : String) : Task :=
  { task with title := newTitle }

/-- Per-user dashboard counts as defaulted by `DashboardPage`
(DashboardPage.js lines 35-37). -/
structure UserDashboardCounts where
  total_tasks : Nat
  completed_tasks : Nat
  pending_tasks : Nat
  in_progress_tasks : Nat
deriving DecidableEq, Repr

/-- Default user-dashboard data set when the dashboard API fails
(DashboardPage.js lines 35-37): every count zero. -/
def userDashboardFallback : UserDashboardCounts :=
  { total_tasks := 0
    completed_tasks := 0
    pending_tasks := 0
    in_progress_tasks := 0 }

/-- User-dashboard fetch (DashboardPage.js lines 29-38): the response when
it arrives, else the zeroed default — the inner catch never rethrows. -/
def fetchUserDashboard (resp : Except ApiError UserDashboardCounts) :
    UserDashboardCounts :=
  match resp with
  | Except.ok d => d
  | Except.error _ => userDashboardFallback

/-- Admin dashboard aggregate as defaulted by `AdminDashboard`
(fetchDashboardData catch branch, lines 91-103 of the admin dashboard
page). -/
structure AdminDashboardData where
  total_users : Nat
  total_tasks : Nat
  active_tasks : Nat
  completed_tasks : Nat
  overdue_tasks : Nat
  total_hours_logged : Nat
  users_by_role_admin : Nat
  users_by_role_user : Nat
  tasks_pending : Nat
  tasks_in_progress : Nat
  tasks_completed : Nat
  tasks_low : Nat
  tasks_medium : Nat
  tasks_high : Nat
  top_performers : List Nat
  overdue_tasks_list : List Nat
deriving DecidableEq, Repr

/-- Default admin-dashboard structure set when the aggregate query fails:
all task counts zero and both lists empty, but `users_by_role` is
`{ admin: 1, user: 0 }`. -/
def adminDashboardFallback : AdminDashboardData :=
  { total_users := 0
    total_tasks := 0
    active_tasks := 0
    completed_tasks := 0
    overdue_tasks := 0
    total_hours_logged := 0
    users_by_role_admin := 1
    users_by_role_user := 0
    tasks_pending := 0
    tasks_in_progress := 0
    tasks_completed := 0
    tasks_low := 0
    tasks_medium := 0
    tasks_high := 0
    top_performers := []
    overdue_tasks_list := [] }

/-- Admin-dashboard fetch (`fetchDashboardData`): the response when it
arrives, else the default structure — the catch swallows the error. -/
def fetchAdminDashboard (resp : Except ApiError AdminDashboardData) :
    AdminDashboardData :=
  match resp with
  | Except.ok d => d
  | Except.error _ => adminDashboardFallback

/-- What the admin dashboard page renders given its state: the loading
spinner, the failure branch when no data was ever set, or the dashboard. -/
inductive AdminPageView
  | loadingSpinner
  | failureBranch
  | dashboardView (d : AdminDashboardData)
deriving DecidableEq, Repr

/-- Render logic of the admin dashboard page (isLoading check, then the
`!dashboardData` failure branch, then the dashboard itself). -/
def renderAdminDashboard (isLoading : Bool)
    (dashboardData : Option AdminDashboardData) : AdminPageView :=
  if isLoading then AdminPageView.loadingSpinner
  else
    match dashboardData with
    | none => AdminPageView.failureBranch
    | some d => AdminPageView.dashboardView d

/-- Concrete user store for the login witnesses: one registered account. -/
def demoUsers : List User :=
  [{ id := 1
     email := "a@x.com"
     passwordHash := hashPassword "secret1"
     first_name := "A"
     last_name := "X"
     role := Role.user }]

/-- Concrete empty-title payload for the createTask witness. -/
def emptyTitlePayload : TaskPayload :=
  { title := ""
    description := "d"
    task_type := "task"
    priority := "medium"
    assignee_id := none
    assignee_ids := none
    estimated_hours := 0
    due_date := none
    is_public := false
    tags := none }

/-- Concrete valid payload with the assignee omitted. -/
def validPayloadNoAssignee : TaskPayload :=
  { title := "Fix bug"
    description := "d"
    task_type := "task"
    priority := "high"
    assignee_id := none
    assignee_ids := none
    estimated_hours := 0
    due_date := none
    is_public := false
    tags := none }

/-- Concrete registration payload whose role claim is "admin", used to
witness that the server-side default ignores it. -/
def demoSignupPayload : SignupPayload :=
  { email := "b@x.com"
    password := "secret2"
    first_name := "B"
    last_name := "Y"
    role := "admin" }

/-- The user record that registering `demoSignupPayload` creates. -/
def demoRegisteredUser : User :=
  { id := 2
    email := "b@x.com"
    passwordHash := hashPassword "secret2"
    first_name := "B"
    last_name := "Y"
    role := Role.user }

/-- Concrete store of twelve qualifying tasks for the pagination witness. -/
def twelveTasks : List Task :=
  (List.range 12).map (fun i =>
    { id := i + 1
      title := "t"
      description := "d"
      status := Status.pending
      priority := "low"
      assignee_id := 1
      assignee_ids := []
      author_id := 1
      assignee_email := "a@x.com"
      due_date := none })

end TaskPulse

namespace TaskPulse

/-- C1 counterexample: with primary assignee 7 and additional assignees
[3] both specified, the payload built by `CreateTaskModal.handleSubmit`
has `assignee_ids = [3]`, which does not contain the primary assignee 7 —
the client performs no normalization. -/
theorem C1_counterexample :
    (modalTaskData cexModalForm (some 1) [3]).assignee_id = some 7 ∧
    (modalTaskData cexModalForm (some 1) [3]).assignee_ids = some [3] ∧
    ¬ (7 ∈ [3]) := by
  refine ⟨rfl, rfl, by decide⟩

/-- C1 (amended): the client payload's additional-assignee list is exactly
the explicitly selected list (absent when nothing is selected), in both the
modal and the create-task page; a user id is in it iff it was selected, so
the primary assignee is included only when explicitly selected — and the
modal's additional-assignee choices always exclude the current primary. -/
theorem C1_payload_exactly_selected (form : ModalForm) (userId : Option Nat)
    (sel : List Nat) (x : Nat) (title description taskType priority : String)
    (assigneeId : Option Nat) (estimatedHours : Nat) (dueDate : String)
    (isPublic : Bool) (tags : String) (assignees : List Nat) :
    ((∃ l, (modalTaskData form userId sel).assignee_ids = some l ∧ x ∈ l)
        ↔ x ∈ sel) ∧
    ((∃ l, (pageTaskData title description taskType priority assigneeId
        userId sel estimatedHours dueDate isPublic tags).assignee_ids = some l
        ∧ x ∈ l) ↔ x ∈ sel) ∧
    x ∉ modalAdditionalOptions assignees (some x) := by
  have hsel : ∀ o : Option (List Nat),
      o = (if sel.length > 0 then some sel else none) →
      ((∃ l, o = some l ∧ x ∈ l) ↔ x ∈ sel) := by
    intro o ho
    subst ho
    by_cases h : sel.length > 0
    · simp [h]
    · have : sel = [] := List.length_eq_zero.mp (Nat.eq_zero_of_not_pos h)
      subst this
      simp
  refine ⟨hsel _ rfl, hsel _ rfl, ?_⟩
  simp [modalAdditionalOptions]

/-- C2: a non-admin caller is denied admin access — the admin endpoint
fails with `Forbidden` and the admin routes redirect to the caller's own
dashboard; an unauthenticated caller is redirected to login (and the
endpoint fails with `Unauthenticated`); the same access with role `admin`
succeeds and the admin view renders. -/
theorem C2_admin_gate (r : Role) (h : r ≠ Role.admin) :
    adminEndpointAccess (some r) = Except.error ApiError.Forbidden ∧
    adminRoute true (some r) = RouteOutcome.redirectDashboard ∧
    adminRoute false none = RouteOutcome.redirectLogin ∧
    adminEndpointAccess none = Except.error ApiError.Unauthenticated ∧
    adminEndpointAccess (some Role.admin) = Except.ok () ∧
    adminRoute true (some Role.admin) = RouteOutcome.renderPage := by
  cases r with
  | admin => exact absurd rfl h
  | user => exact ⟨rfl, by decide, by decide, rfl, rfl, by decide⟩

/-- C2 witness: the gate evaluated for the concrete non-admin role. -/
theorem C2_admin_gate_witness :
    adminEndpointAccess (some Role.user) = Except.error ApiError.Forbidden ∧
    adminRoute true (some Role.user) = RouteOutcome.redirectDashboard ∧
    adminRoute false none = RouteOutcome.redirectLogin ∧
    adminEndpointAccess none = Except.error ApiError.Unauthenticated ∧
    adminEndpointAccess (some Role.admin) = Except.ok () ∧
    adminRoute true (some Role.admin) = RouteOutcome.renderPage :=
  C2_admin_gate Role.user (by decide)

/-- C8: `logout` never fails and always leaves the fully cleared credential
state — no stored user, no access token, not authenticated — whatever the
prior state and whatever the server-side invalidation returned; hence it is
idempotent and calling it without an active session is not an error. -/
theorem C8_logout_idempotent (s : ClientAuthState)
    (r r2 r3 : ServerLogoutResult) :
    logout s r = clearedAuth ∧
    (logout s r).isAuthenticated = false ∧
    (logout s r).userId = none ∧
    (logout s r).storedUser = none ∧
    (logout s r).accessToken = none ∧
    logout (logout s r) r2 = logout s r ∧
    logout clearedAuth r3 = clearedAuth := by
  cases r <;> cases r2 <;> cases r3 <;>
    exact ⟨rfl, rfl, rfl, rfl, rfl, rfl, rfl⟩

/-- C10: frame property of the client status change — the list keeps its
length, every entry whose id differs from `taskId` is unchanged, and an
entry whose id equals `taskId` gets the new status while every other field
(id, title, description, priority, assignees, author, email, due date) is
preserved. -/
theorem C10_status_frame (tasks : List Task) (taskId : Nat)
    (newStatus : Status) (i : Nat) (h : i < tasks.length) :
    (changeStatusLocal tasks taskId newStatus).length = tasks.length ∧
    ((tasks.get ⟨i, h⟩).id ≠ taskId →
      (changeStatusLocal tasks taskId newStatus).get
        ⟨i, by simpa [changeStatusLocal] using h⟩ = tasks.get ⟨i, h⟩) ∧
    ((tasks.get ⟨i, h⟩).id = taskId →
      ((changeStatusLocal tasks taskId newStatus).get
          ⟨i, by simpa [changeStatusLocal] using h⟩).status = newStatus ∧
      ((changeStatusLocal tasks taskId newStatus).get
          ⟨i, by simpa [changeStatusLocal] using h⟩).id =
        (tasks.get ⟨i, h⟩).id ∧
      ((changeStatusLocal tasks taskId newStatus).get
          ⟨i, by simpa [changeStatusLocal] using h⟩).title =
        (tasks.get ⟨i, h⟩).title ∧
      ((changeStatusLocal tasks taskId newStatus).get
          ⟨i, by simpa [changeStatusLocal] using h⟩).description =
        (tasks.get ⟨i, h⟩).description ∧
      ((changeStatusLocal tasks taskId newStatus).get
          ⟨i, by simpa [changeStatusLocal] using h⟩).priority =
        (tasks.get ⟨i, h⟩).priority ∧
      ((changeStatusLocal tasks taskId newStatus).get
          ⟨i, by simpa [changeStatusLocal] using h⟩).assignee_id =
        (tasks.get ⟨i, h⟩).assignee_id ∧
      ((changeStatusLocal tasks taskId newStatus).get
          ⟨i, by simpa [changeStatusLocal] using h⟩).assignee_ids =
        (tasks.get ⟨i, h⟩).assignee_ids ∧
      ((changeStatusLocal tasks taskId newStatus).get
          ⟨i, by simpa [changeStatusLocal] using h⟩).author_id =
        (tasks.get ⟨i, h⟩).author_id ∧
      ((changeStatusLocal tasks taskId newStatus).get
          ⟨i, by simpa [changeStatusLocal] using h⟩).assignee_email =
        (tasks.get ⟨i, h⟩).assignee_email ∧
      ((changeStatusLocal tasks taskId newStatus).get
          ⟨i, by simpa [changeStatusLocal] using h⟩).due_date =
        (tasks.get ⟨i, h⟩).due_date) := by
  have hget : (changeStatusLocal tasks taskId newStatus).get
      ⟨i, by simpa [changeStatusLocal] using h⟩ =
      (if (tasks.get ⟨i, h⟩).id = taskId
        then { tasks.get ⟨i, h⟩ with status := newStatus }
        else tasks.get ⟨i, h⟩) := by
    simp [changeStatusLocal, List.get_eq_getElem, List.getElem_map]
  refine ⟨by simp [changeStatusLocal], ?_, ?_⟩
  · intro hne
    rw [hget, if_neg hne]
  · intro heq
    rw [hget, if_pos heq]
    exact ⟨rfl, rfl, rfl, rfl, rfl, rfl, rfl, rfl, rfl, rfl⟩

/-- C3: any two failed login attempts — in particular one with an existing
email and a wrong password and one with an unknown email — produce exactly
the same externally visible client state, showing the one fixed error
message; login failure is no account-existence oracle. -/
theorem C3_login_no_account_oracle (users : List User)
    (email1 pw1 email2 pw2 : String) (e1 e2 : LoginError)
    (h1 : login users email1 pw1 = Except.error e1)
    (h2 : login users email2 pw2 = Except.error e2) :
    loginSubmit (login users email1 pw1) =
      loginSubmit (login users email2 pw2) ∧
    (loginSubmit (login users email1 pw1)).errorMessage =
      "Invalid email or password. Please try again." := by
  rw [h1, h2]
  exact ⟨rfl, rfl⟩

/-- C3 witness: on a store with the account `a@x.com` / password
`secret1`, the wrong-password attempt and the unknown-email attempt both
fail and yield identical client states. -/
theorem C3_login_no_account_oracle_witness :
    login demoUsers "a@x.com" "wrong" =
      Except.error LoginError.InvalidCredentials ∧
    login demoUsers "nobody@x.com" "secret1" =
      Except.error LoginError.InvalidCredentials ∧
    loginSubmit (login demoUsers "a@x.com" "wrong") =
      loginSubmit (login demoUsers "nobody@x.com" "secret1") :=
  ⟨rfl, rfl,
    (C3_login_no_account_oracle demoUsers "a@x.com" "wrong" "nobody@x.com"
      "secret1" LoginError.InvalidCredentials LoginError.InvalidCredentials
      rfl rfl).1⟩

/-- C4: with the assignee omitted in the payload, an empty title makes
`createTask` fail with `ValidationError` leaving the store unchanged, any
successful create yields a task whose primary assignee (and author) is the
caller, and on the client an omitted form assignee already defaults the
payload's `assignee_id` to the logged-in user. -/
theorem C4_create_task_contract (users : List User) (tasks : List Task)
    (p : TaskPayload) (callerId nextId : Nat)
    (hOmit : p.assignee_id = none) :
    (p.title = "" →
      createTask users tasks p callerId nextId =
        Except.error ApiError.ValidationError ∧
      createTaskStore users tasks p callerId nextId = tasks) ∧
    (∀ t : Task, ∀ tasks2 : List Task,
      createTask users tasks p callerId nextId = Except.ok (t, tasks2) →
      t.assignee_id = callerId ∧ t.author_id = callerId ∧
      tasks2 = tasks ++ [t]) ∧
    (∀ form : ModalForm, ∀ uid : Nat, ∀ sel : List Nat,
      form.assignee_id = none →
      (modalTaskData form (some uid) sel).assignee_id = some uid) := by
  refine ⟨?_, ?_, ?_⟩
  · intro hT
    exact ⟨by simp [createTask, hT], by simp [createTaskStore, createTask, hT]⟩
  · intro t tasks2 hOk
    by_cases hT : p.title = ""
    · simp [createTask, hT] at hOk
    · by_cases hP : p.priority ∈ ["low", "medium", "high"]
      · by_cases hU : ∃ v ∈ users, v.id = callerId
        · simp [createTask, hT, hP, hOmit, hU] at hOk
          obtain ⟨h1, h2⟩ := hOk
          subst h1
          exact ⟨rfl, rfl, h2.symm⟩
        · simp [createTask, hT, hP, hOmit, hU] at hOk
      · simp [createTask, hT, hP] at hOk
  · intro form uid sel hfa
    simp [modalTaskData, jsOrNat, hfa]

/-- C4 witness: the empty-title payload (assignee omitted) is rejected
with `ValidationError` on the concrete store, which stays empty. -/
theorem C4_create_task_contract_witness :
    emptyTitlePayload.assignee_id = none ∧
    (createTask demoUsers [] emptyTitlePayload 1 10 =
        Except.error ApiError.ValidationError ∧
      createTaskStore demoUsers [] emptyTitlePayload 1 10 = []) :=
  ⟨rfl, (C4_create_task_contract demoUsers [] emptyTitlePayload 1 10 rfl).1 rfl⟩

/-- C5 counterexample to "all counts 0": the admin dashboard's defensive
default is not fully zeroed — its users-by-role map defaults to one admin
user, so the fallback structure returned on a failed aggregate query has
`users_by_role.admin = 1`. -/
theorem C5_counterexample :
    fetchAdminDashboard (Except.error ApiError.Forbidden) =
      adminDashboardFallback ∧
    adminDashboardFallback.users_by_role_admin = 1 ∧
    ¬ adminDashboardFallback.users_by_role_admin = 0 :=
  ⟨rfl, rfl, by decide⟩

/-- C5 (amended): when the dependent aggregate query errors, both
dashboards degrade to a fixed default structure instead of failing the
page — the user dashboard to all-zero counts, the admin dashboard to zero
task counts and empty lists (its users-by-role default reports one admin
and zero users) — and the page still renders the dashboard view, never the
failure branch. -/
theorem C5_dashboard_degrades (e e2 : ApiError) :
    fetchUserDashboard (Except.error e) = userDashboardFallback ∧
    userDashboardFallback.total_tasks = 0 ∧
    userDashboardFallback.completed_tasks = 0 ∧
    userDashboardFallback.pending_tasks = 0 ∧
    userDashboardFallback.in_progress_tasks = 0 ∧
    fetchAdminDashboard (Except.error e) = adminDashboardFallback ∧
    adminDashboardFallback.total_users = 0 ∧
    adminDashboardFallback.total_tasks = 0 ∧
    adminDashboardFallback.active_tasks = 0 ∧
    adminDashboardFallback.completed_tasks = 0 ∧
    adminDashboardFallback.overdue_tasks = 0 ∧
    adminDashboardFallback.users_by_role_admin = 1 ∧
    adminDashboardFallback.users_by_role_user = 0 ∧
    adminDashboardFallback.top_performers = [] ∧
    adminDashboardFallback.overdue_tasks_list = [] ∧
    renderAdminDashboard false (some (fetchAdminDashboard (Except.error e2)))
      = AdminPageView.dashboardView adminDashboardFallback :=
  ⟨rfl, rfl, rfl, rfl, rfl, rfl, rfl, rfl, rfl, rfl, rfl, rfl, rfl, rfl,
    rfl, rfl⟩

/-- C6: the client computes the pagination offset as
`skip = (page - 1) * limit` (so consecutive pages tile the list:
`skip + limit = page * limit`), and on a store of 12 qualifying tasks the
page-2 / pageSize-5 request returns exactly 5 items with `total = 12`. -/
theorem C6_pagination (page limit : Nat) (asc : Bool) (ts : List Task)
    (hp : 1 ≤ page) (hl : 1 ≤ limit) (hts : ts.length = 12) :
    (getAllTaskQuery page asc limit).skip = (page - 1) * limit ∧
    (getAllTaskQuery page asc limit).skip + limit = page * limit ∧
    (listTasks ts (getAllTaskQuery 2 asc 5).skip
      (getAllTaskQuery 2 asc 5).limit).1.length = 5 ∧
    (listTasks ts (getAllTaskQuery 2 asc 5).skip
      (getAllTaskQuery 2 asc 5).limit).2 = 12 := by
  have hl0 : 0 < limit := hl
  refine ⟨rfl, ?_, ?_, ?_⟩
  · show (page - 1) * limit + limit = page * limit
    obtain ⟨q, rfl⟩ : ∃ q, page = q + 1 :=
      ⟨page - 1, (Nat.succ_pred_eq_of_pos hp).symm⟩
    simp [Nat.succ_mul]
  · simp [listTasks, getAllTaskQuery, hts]
  · simp [listTasks, hts]

/-- C6 witness: the pagination law evaluated on the concrete 12-task
store at page 2 with pageSize 5. -/
theorem C6_pagination_witness :
    (1 ≤ 2) ∧ (1 ≤ 5) ∧ twelveTasks.length = 12 ∧
    ((listTasks twelveTasks (getAllTaskQuery 2 true 5).skip
        (getAllTaskQuery 2 true 5).limit).1.length = 5 ∧
      (listTasks twelveTasks (getAllTaskQuery 2 true 5).skip
        (getAllTaskQuery 2 true 5).limit).2 = 12) := by
  refine ⟨by decide, by decide, by decide, ?_⟩
  have h := C6_pagination 2 5 true twelveTasks (by decide) (by decide)
    (by decide)
  exact ⟨h.2.2.1, h.2.2.2⟩

/-- C7: round-trip — whenever `updateTaskTitle id x` succeeds, reading the
task back with `getTaskDetails id` yields title `x`; the client's
optimistic local update agrees. -/
theorem C7_title_roundtrip (tasks tasks2 : List Task) (id : Nat)
    (x : String) (t : Task)
    (hU : updateTaskTitle tasks id x = Except.ok tasks2)
    (hG : getTaskDetails tasks2 id = Except.ok t) :
    t.title = x ∧ (∀ old : Task, (handleSaveTitle old x).title = x) := by
  refine ⟨?_, fun old => rfl⟩
  have h2 : tasks2 = tasks.map (fun u =>
      if u.id = id then { u with title := x } else u) := by
    by_cases hA : tasks.any (fun u => u.id = id)
    · simp [updateTaskTitle, hA] at hU
      exact hU.symm
    · simp [updateTaskTitle, hA] at hU
  subst h2
  have hfind : (tasks.map (fun u =>
      if u.id = id then { u with title := x } else u)).find?
      (fun u => u.id = id) = some t := by
    cases hf : (tasks.map (fun u =>
        if u.id = id then { u with title := x } else u)).find?
        (fun u => u.id = id) with
    | none => simp [getTaskDetails, hf] at hG
    | some v =>
        simp [getTaskDetails, hf] at hG
        rw [hG]
  have hmem : t ∈ tasks.map (fun u =>
      if u.id = id then { u with title := x } else u) :=
    List.mem_of_find?_eq_some hfind
  have hpt : t.id = id := by simpa using List.find?_some hfind
  rcases List.mem_map.mp hmem with ⟨b, _, hfb⟩
  by_cases hbid : b.id = id
  · rw [← hfb]
    simp [hbid]
  · rw [← hfb] at hpt
    simp [hbid] at hpt

/-- C7 witness: on the one-task store, updating task 1's title to "X" and
reading it back returns title "X". -/
theorem C7_title_roundtrip_witness :
    updateTaskTitle [demoTaskA] 1 "X" =
      Except.ok [handleSaveTitle demoTaskA "X"] ∧
    getTaskDetails [handleSaveTitle demoTaskA "X"] 1 =
      Except.ok (handleSaveTitle demoTaskA "X") ∧
    (handleSaveTitle demoTaskA "X").title = "X" :=
  ⟨rfl, rfl,
    (C7_title_roundtrip [demoTaskA] [handleSaveTitle demoTaskA "X"] 1 "X"
      (handleSaveTitle demoTaskA "X") rfl rfl).1⟩

/-- C9: every user the registration operation creates has role `user`,
for every client-supplied payload (so the role claim in the payload is
never used); the client itself only ever sends the constant role "user";
and a `user`-role caller cannot perform the promotion operation. -/
theorem C9_registration_role (users : List User) (p : SignupPayload)
    (nextId : Nat) (u : User) (users2 : List User)
    (hOk : register users p nextId = Except.ok (u, users2)) :
    u.role = Role.user ∧
    (∀ s : SignupInput, (signUpUserPayload s).role = "user") ∧
    (∀ us : List User, ∀ tgt : Nat,
      promoteToAdmin us Role.user tgt = Except.error ApiError.Forbidden) := by
  refine ⟨?_, fun s => rfl, fun us tgt => rfl⟩
  by_cases hD : users.any (fun v => v.email = p.email)
  · simp [register, hD] at hOk
  · by_cases hL : p.password.length < 6
    · simp [register, hD, hL] at hOk
    · simp [register, hD, hL] at hOk
      rw [← hOk.1]

/-- C9 witness: registering `b@x.com` with a payload that even claims role
"admin" still creates a `user`-role account. -/
theorem C9_registration_role_witness :
    demoSignupPayload.role = "admin" ∧
    register demoUsers demoSignupPayload 2 =
      Except.ok (demoRegisteredUser, demoUsers ++ [demoRegisteredUser]) ∧
    demoRegisteredUser.role = Role.user :=
  ⟨rfl, rfl,
    (C9_registration_role demoUsers demoSignupPayload 2 demoRegisteredUser
      (demoUsers ++ [demoRegisteredUser]) rfl).1⟩

/-- C10 witness: the frame theorem applied to a concrete two-task list at
index 0, changing the status of task 1. -/
theorem C10_status_frame_witness :
    (0 < [demoTaskA, demoTaskB].length) ∧
    (changeStatusLocal [demoTaskA, demoTaskB] 1 Status.completed).length =
      [demoTaskA, demoTaskB].length := by
  refine ⟨by decide, ?_⟩
  exact (C10_status_frame [demoTaskA, demoTaskB] 1 Status.completed 0
    (by decide)).1

end TaskPulse
